import Mathlib

/-!
Shallow embedding of the pricing logic of the wpcdelbravo repository
(src/delivery_config.py and src/app.py).

Money and mileage values are embedded as exact rationals (ℚ); Python dict
lookups that can raise KeyError are embedded as Option-returning lookups.
-/

/-- The two origin stores.  The UI offers exactly these two values
(`st.selectbox("Sold From:", ["Frankfort", "Lexington"])`), and
`ORIGIN_ADDRESSES` has exactly these two keys. -/
inductive Origin where
  | Frankfort
  | Lexington
deriving DecidableEq

/-- One entry of the `DELIVERY_TYPES` dict of delivery_config.py.  Each Python
dict entry holds only some of these keys, so every numeric field is an
`Option ℚ`; a `none` field read corresponds to a Python KeyError. -/
structure DeliveryConfig where
  frankfort_minimum : Option ℚ := none
  lexington_minimum : Option ℚ := none
  minimum : Option ℚ := none
  rate_per_mile : Option ℚ := none
  allows_to_the_hole : Bool := false
  pricing_type : String := ""
  setup_fee : Option ℚ := none
  first_20_miles_rate : Option ℚ := none
  after_20_miles_rate : Option ℚ := none
  frankfort_price : Option ℚ := none
  lexington_price : Option ℚ := none
deriving DecidableEq

/-- The `DELIVERY_TYPES` configuration table of delivery_config.py, as a
lookup function (Python dict access `DELIVERY_TYPES[name]`). -/
def DELIVERY_TYPES (name : String) : Option DeliveryConfig :=
  if name = "Single" then
    some { frankfort_minimum := some 45, lexington_minimum := some 50,
           rate_per_mile := some 2.00, allows_to_the_hole := true,
           pricing_type := "standard" }
  else if name = "Double" then
    some { frankfort_minimum := some 60, lexington_minimum := some 70,
           rate_per_mile := some 2.95, allows_to_the_hole := true,
           pricing_type := "standard" }
  else if name = "Bulk" then
    some { frankfort_minimum := some 55, lexington_minimum := some 65,
           rate_per_mile := some 2.65, allows_to_the_hole := true,
           pricing_type := "standard" }
  else if name = "Bulk Plus" then
    some { frankfort_minimum := some 65, lexington_minimum := some 80,
           rate_per_mile := some 3.05, allows_to_the_hole := true,
           pricing_type := "standard" }
  else if name = "Christmas Tree (7-8ft and smaller)" then
    some { minimum := some 35, allows_to_the_hole := false,
           pricing_type := "christmas_tree_small",
           rate_per_mile := some 1.20, setup_fee := some 16.50 }
  else if name = "Christmas Tree (8-9ft and larger)" then
    some { minimum := some 55, allows_to_the_hole := false,
           pricing_type := "christmas_tree_large",
           first_20_miles_rate := some 1.60, after_20_miles_rate := some 0.75,
           setup_fee := some 30.50 }
  else if name = "Simple" then
    some { frankfort_price := some 8.00, lexington_price := some 30.00,
           allows_to_the_hole := false, pricing_type := "simple" }
  else none

/-- `TO_THE_HOLE_FEE` of delivery_config.py. -/
def TO_THE_HOLE_FEE : ℚ := 20.00

/-- `ORIGIN_ADDRESSES` of delivery_config.py, keyed by the two origins. -/
def ORIGIN_ADDRESSES (o : Origin) : String :=
  match o with
  | .Frankfort => "3690 East West Connector, Frankfort, KY 40601"
  | .Lexington => "2700 Palumbo Drive, Lexington, KY 40509"

/-- The per-origin minimum lookup `config[f"{origin_name.lower()}_minimum"]`
of `calculate_standard_price`: it reads `frankfort_minimum` or
`lexington_minimum` according to the origin. -/
def origin_minimum (config : DeliveryConfig) (origin_name : Origin) : Option ℚ :=
  match origin_name with
  | .Frankfort => config.frankfort_minimum
  | .Lexington => config.lexington_minimum

/-- `calculate_christmas_tree_small_price` of delivery_config.py. -/
def calculate_christmas_tree_small_price (roundtrip_mileage : ℚ) : Option ℚ :=
  match DELIVERY_TYPES "Christmas Tree (7-8ft and smaller)" with
  | none => none
  | some config =>
    if roundtrip_mileage ≤ 0 then config.minimum
    else
      match config.rate_per_mile, config.setup_fee, config.minimum with
      | some rate, some setup, some minimum =>
          some (max (roundtrip_mileage * rate + setup) minimum)
      | _, _, _ => none

/-- `calculate_christmas_tree_large_price` of delivery_config.py:
tiered mileage cost (first 20 miles at `first_20_miles_rate`, the rest at
`after_20_miles_rate`) plus `setup_fee`, floored at `minimum`. -/
def calculate_christmas_tree_large_price (roundtrip_mileage : ℚ) : Option ℚ :=
  match DELIVERY_TYPES "Christmas Tree (8-9ft and larger)" with
  | none => none
  | some config =>
    if roundtrip_mileage ≤ 0 then config.minimum
    else
      match config.first_20_miles_rate, config.after_20_miles_rate,
            config.setup_fee, config.minimum with
      | some r1, some r2, some setup, some minimum =>
          let mileage_cost :=
            if roundtrip_mileage ≤ 20 then roundtrip_mileage * r1
            else 20 * r1 + (roundtrip_mileage - 20) * r2
          some (max (mileage_cost + setup) minimum)
      | _, _, _, _ => none

/-- `calculate_standard_price` of delivery_config.py:
`max(rate_per_mile * roundtrip_mileage, minimum-for-origin)`. -/
def calculate_standard_price (roundtrip_mileage : ℚ) (delivery_type : String)
    (origin_name : Origin) : Option ℚ :=
  match DELIVERY_TYPES delivery_type with
  | none => none
  | some config =>
    match config.rate_per_mile, origin_minimum config origin_name with
    | some rate, some min_fee => some (max (rate * roundtrip_mileage) min_fee)
    | _, _ => none

/-!
Embedding of the pricing-relevant parts of src/app.py.
-/

/-- One entry of the `size_data` lookup table inside
`get_mulch_soil_tablet_quantities` of app.py. -/
structure SizeEntry where
  mulch : ℚ × ℚ × ℚ
  soil : ℚ
  tablets : ℚ
deriving DecidableEq

/-- The `size_data` dict of `get_mulch_soil_tablet_quantities` (app.py),
keyed by plant size, as a lookup function. -/
def size_data (plant_size : String) : Option SizeEntry :=
  if plant_size = "1.25" then some { mulch := (2, 2, 1), soil := 0.5, tablets := 4 }
  else if plant_size = "1.5" then some { mulch := (2, 2, 1), soil := 0.5, tablets := 4 }
  else if plant_size = "1.75" then some { mulch := (3, 3, 2), soil := 1, tablets := 5 }
  else if plant_size = "2" then some { mulch := (3, 3, 3), soil := 2, tablets := 6 }
  else if plant_size = "5-6" then some { mulch := (3, 3, 2), soil := 1, tablets := 5 }
  else if plant_size = "6-7" then some { mulch := (3, 3, 3), soil := 2, tablets := 6 }
  else if plant_size = "Slender Upright" then some { mulch := (2, 2, 1), soil := 0.5, tablets := 4 }
  else if plant_size = "1G" then some { mulch := (0.5, 0.5, 0.25), soil := 0.25, tablets := 2 }
  else if plant_size = "2G" then some { mulch := (0.5, 0.5, 0.25), soil := 0.25, tablets := 2 }
  else if plant_size = "3G" then some { mulch := (0.5, 0.5, 0.25), soil := 0.5, tablets := 3 }
  else if plant_size = "5G" then some { mulch := (1, 1, 0.5), soil := 0.5, tablets := 4 }
  else if plant_size = "7G" then some { mulch := (1, 1, 1), soil := 1, tablets := 5 }
  else if plant_size = "10G" then some { mulch := (2, 2, 2), soil := 1, tablets := 6 }
  else if plant_size = "15G" then some { mulch := (2, 2, 2), soil := 2, tablets := 8 }
  else if plant_size = "30G" then some { mulch := (3, 3, 3), soil := 3, tablets := 12 }
  else none

/-- `category_a` of `get_mulch_soil_tablet_quantities` (app.py). -/
def category_a : List String :=
  ["Soil Conditioner Only", "Hardwood", "Eastern Red Cedar", "Pine Bark",
   "Pine Bark Mini Nuggets", "Pine Bark Nuggets"]

/-- `category_b` of `get_mulch_soil_tablet_quantities` (app.py). -/
def category_b : List String := ["Grade A Cedar", "Redwood"]

/-- `category_c` of `get_mulch_soil_tablet_quantities` (app.py). -/
def category_c : List String := ["Pine Straw"]

/-- `get_mulch_soil_tablet_quantities` of app.py: mulch, soil-conditioner and
tablet quantities for one plant line.  An unknown plant size or mulch type
yields `(0, 0, 0)` (the Python code displays an error message and returns
`0, 0, 0`; it does not raise). -/
def get_mulch_soil_tablet_quantities (plant_size mulch_type : String)
    (quantity : ℚ) : ℚ × ℚ × ℚ :=
  match size_data plant_size with
  | none => (0, 0, 0)
  | some base_data =>
    let mulch_base? : Option ℚ :=
      if mulch_type ∈ category_a then some base_data.mulch.1
      else if mulch_type ∈ category_b then some base_data.mulch.2.1
      else if mulch_type ∈ category_c then some base_data.mulch.2.2
      else none
    match mulch_base? with
    | none => (0, 0, 0)
    | some mulch_base =>
      (mulch_base * quantity, base_data.soil * quantity, base_data.tablets * quantity)

/-- Outcome of the Google Maps distance-matrix call made by
`calculate_driving_distance` of app.py: either a parsed one-way mileage, or
any of the failure cases (missing API key, status not OK, raised exception). -/
inductive DistanceResult where
  | ok (miles : ℚ)
  | failure
deriving DecidableEq

/-- `calculate_driving_distance` of app.py, as a function of the API call's
outcome: on success it returns the parsed one-way mileage; on every failure
path it displays an error message and returns `0`. -/
def calculate_driving_distance (result : DistanceResult) : ℚ :=
  match result with
  | .ok miles => miles
  | .failure => 0

/-- One plant entry of `plants_data` as assembled by the Step-A form of
app.py (`st.session_state.plants`). -/
structure Plant where
  quantity : ℚ
  size : String
  price : ℚ
  discount_percent : ℚ
  discount_dollars : ℚ
deriving DecidableEq

/-- The `installation_data` dict assembled by the Step-B form of app.py. -/
structure InstallationData where
  origin_location : String
  mulch_type : String
  tree_stakes_quantity : ℚ
  deer_guards_quantity : ℚ
  installation_type : String
  customer_street_address : String
  customer_city : String
  customer_zip : String
deriving DecidableEq

/-- The `plant_material_total` accumulator of `calculate_pricing` (app.py):
sum over all plants of `price * quantity`. -/
def plant_material_total (plants_data : List Plant) : ℚ :=
  (plants_data.map fun p => p.price * p.quantity).sum

/-- The `plant_material_discount_total` accumulator of `calculate_pricing`
(app.py): sum over all plants of
`(price * (1 - discount_percent/100) - discount_dollars) * quantity`. -/
def plant_material_discount_total (plants_data : List Plant) : ℚ :=
  (plants_data.map fun p =>
    (p.price * (1 - p.discount_percent / 100) - p.discount_dollars) * p.quantity).sum

/-- The `total_mulch_quantity` accumulator of `calculate_pricing` (app.py)
before the `math.ceil` call. -/
def total_mulch_quantity_raw (plants_data : List Plant) (mulch_type : String) : ℚ :=
  (plants_data.map fun p =>
    (get_mulch_soil_tablet_quantities p.size mulch_type p.quantity).1).sum

/-- The `total_soil_quantity` accumulator of `calculate_pricing` (app.py)
before the `math.ceil` call. -/
def total_soil_quantity_raw (plants_data : List Plant) (mulch_type : String) : ℚ :=
  (plants_data.map fun p =>
    (get_mulch_soil_tablet_quantities p.size mulch_type p.quantity).2.1).sum

/-- The `total_tablet_quantity` accumulator of `calculate_pricing` (app.py)
before the `math.ceil` call. -/
def total_tablet_quantity_raw (plants_data : List Plant) (mulch_type : String) : ℚ :=
  (plants_data.map fun p =>
    (get_mulch_soil_tablet_quantities p.size mulch_type p.quantity).2.2).sum

/-- The mulch unit price selected by the `if/elif` chain on `mulch_type` in
`calculate_pricing` (app.py); unknown types fall back to the default 8.99. -/
def mulch_unit_price (mulch_type : String) : ℚ :=
  if mulch_type = "Soil Conditioner Only" then 9.99
  else if mulch_type = "Hardwood" then 8.99
  else if mulch_type = "Eastern Red Cedar" then 8.99
  else if mulch_type = "Pine Bark" then 8.99
  else if mulch_type = "Pine Bark Mini Nuggets" then 8.99
  else if mulch_type = "Pine Bark Nuggets" then 8.99
  else if mulch_type = "Grade A Cedar" then 16.99
  else if mulch_type = "Redwood" then 16.99
  else if mulch_type = "Pine Straw" then 15.99
  else 8.99

/-- The mulch SKU selected by the same `if/elif` chain in `calculate_pricing`
(app.py). -/
def mulch_sku_of (mulch_type : String) : String :=
  if mulch_type = "Soil Conditioner Only" then "07SOILC02"
  else if mulch_type = "Hardwood" then "7HARDRVM"
  else if mulch_type = "Eastern Red Cedar" then "RVM CEDAR"
  else if mulch_type = "Pine Bark" then "07PINEBM02"
  else if mulch_type = "Pine Bark Mini Nuggets" then "07PINEBMN02"
  else if mulch_type = "Pine Bark Nuggets" then "07PINEBN02"
  else if mulch_type = "Grade A Cedar" then "CEDAR"
  else if mulch_type = "Redwood" then "REDWOODM"
  else if mulch_type = "Pine Straw" then "07PINESTRAW"
  else "7HARDRVM"

/-- The installation-cost multiplier selected by the `if/elif` chain on
`installation_type` in `calculate_pricing` (app.py); unknown types fall back
to the default 0.97. -/
def install_multiplier (installation_type : String) : ℚ :=
  if installation_type = "Shrubs Only: 97%" then 0.97
  else if installation_type = "1-3 trees: 97%" then 0.97
  else if installation_type = "4-6 trees: 91%" then 0.91
  else if installation_type = "7+ Trees: 85%" then 0.85
  else 0.97

/-- The dict returned by `calculate_pricing` (app.py).  The three ceiled
quantities are integers (`math.ceil` returns `int` in Python); the duplicate
pdf-only keys (`tablet_total_quantity` etc.) are aliases of the quantity
fields and are not repeated here. -/
structure PricingResult where
  plant_material_total : ℚ
  plant_material_discount_total : ℚ
  installation_material_total : ℚ
  installation_cost : ℚ
  delivery_cost : ℚ
  delivery_mileage : ℚ
  final_subtotal : ℚ
  final_tax : ℚ
  final_total : ℚ
  total_mulch_quantity : ℤ
  total_soil_quantity : ℤ
  total_tablet_quantity : ℤ
  tablet_total_price : ℚ
  mulch_total_price : ℚ
  soil_conditioner_total_price : ℚ
  deer_guard_price : ℚ
  tree_stakes_price : ℚ
  mulch_sku : String
  mulch_type : String
deriving DecidableEq

/-- `calculate_pricing` of app.py.  The outcome of the embedded Google Maps
call is passed in as `distance`; everything else follows the source line by
line (unit prices 0.75 / 9.99 / 3.99 / 36.00, ceiled material quantities,
installation multiplier, delivery cost `2.25 * 2 * mileage`, 6% tax). -/
def calculate_pricing (plants_data : List Plant)
    (installation_data : InstallationData) (distance : DistanceResult) :
    PricingResult :=
  let pmt := plant_material_total plants_data
  let pmdt := plant_material_discount_total plants_data
  let total_mulch_quantity : ℤ :=
    ⌈total_mulch_quantity_raw plants_data installation_data.mulch_type⌉
  let total_soil_quantity : ℤ :=
    ⌈total_soil_quantity_raw plants_data installation_data.mulch_type⌉
  let total_tablet_quantity : ℤ :=
    ⌈total_tablet_quantity_raw plants_data installation_data.mulch_type⌉
  let tablet_unit_price : ℚ := 0.75
  let soil_conditioner_unit_price : ℚ := 9.99
  let deer_guard_unit_price : ℚ := 3.99
  let tree_stake_unit_price : ℚ := 36.00
  let tablet_total_price := (total_tablet_quantity : ℚ) * tablet_unit_price
  let mulch_total_price :=
    (total_mulch_quantity : ℚ) * mulch_unit_price installation_data.mulch_type
  let soil_conditioner_total_price :=
    (total_soil_quantity : ℚ) * soil_conditioner_unit_price
  let deer_guard_price := installation_data.deer_guards_quantity * deer_guard_unit_price
  let tree_stakes_price := installation_data.tree_stakes_quantity * tree_stake_unit_price
  let installation_material_total := tablet_total_price + mulch_total_price +
    soil_conditioner_total_price + deer_guard_price + tree_stakes_price
  let installation_cost := (installation_material_total + pmt) *
    install_multiplier installation_data.installation_type
  let delivery_mileage := calculate_driving_distance distance
  let delivery_cost := 2.25 * 2 * delivery_mileage
  let final_subtotal := pmdt + installation_material_total + installation_cost +
    delivery_cost
  let final_tax := final_subtotal * 0.06
  let final_total := final_subtotal + final_tax
  { plant_material_total := pmt
    plant_material_discount_total := pmdt
    installation_material_total := installation_material_total
    installation_cost := installation_cost
    delivery_cost := delivery_cost
    delivery_mileage := delivery_mileage
    final_subtotal := final_subtotal
    final_tax := final_tax
    final_total := final_total
    total_mulch_quantity := total_mulch_quantity
    total_soil_quantity := total_soil_quantity
    total_tablet_quantity := total_tablet_quantity
    tablet_total_price := tablet_total_price
    mulch_total_price := mulch_total_price
    soil_conditioner_total_price := soil_conditioner_total_price
    deer_guard_price := deer_guard_price
    tree_stakes_price := tree_stakes_price
    mulch_sku := mulch_sku_of installation_data.mulch_type
    mulch_type := installation_data.mulch_type }

/-- Whether `needle` occurs at the start of `hay` (character lists). -/
def listStartsWith : List Char → List Char → Bool
  | [], _ => true
  | _ :: _, [] => false
  | n :: ns, h :: hs => n == h && listStartsWith ns hs

/-- Whether `needle` occurs anywhere inside `hay` (Python's `needle in hay`
substring test, over character lists). -/
def occursIn (needle : List Char) : List Char → Bool
  | [] => needle.isEmpty
  | h :: hs => listStartsWith needle (h :: hs) || occursIn needle hs

/-- Modelled from the spec: the "Simple" branch of `computeQuote` is not in
src/ (only the `"Simple"` entry of `DELIVERY_TYPES` is configured there, with
`frankfort_price` and `lexington_price`).  Per the spec this branch bypasses
the mileage lookup entirely and returns the fixed per-city price keyed by
whether the destination text contains one of the two service-city names
(plain substring match, no geocoding), failing — `none` — when neither city
name appears.  The spec fixes the Lexington example (destination containing
"Lexington" always quotes the Lexington price), so that test comes first. -/
def computeQuoteSimple (destination : List Char) (_distance : DistanceResult) :
    Option ℚ :=
  match DELIVERY_TYPES "Simple" with
  | none => none
  | some config =>
    if occursIn "Lexington".toList destination then config.lexington_price
    else if occursIn "Frankfort".toList destination then config.frankfort_price
    else none

/-- Rounding to 2 decimal places with round-half-up, as the spec's words
describe it ("Round to 2 decimal places ... treat as round-half-up").  This
is the spec's rule, stated for comparison with the source functions, which
perform no rounding at all. -/
def roundHalfUp2 (q : ℚ) : ℚ := (⌊q * 100 + 1 / 2⌋ : ℚ) / 100

/-- The configured per-origin minimum of a delivery type: the
`DELIVERY_TYPES` entry's `frankfort_minimum` or `lexington_minimum` field,
exactly as `calculate_standard_price` reads it. -/
def configured_minimum (delivery_type : String) (origin_name : Origin) : Option ℚ :=
  (DELIVERY_TYPES delivery_type).bind fun config => origin_minimum config origin_name

/-- Sample plant used to instantiate the pricing theorems on concrete data:
2 of a 5G plant at $10 retail, 10% off and $1 off. -/
def sample_plant : Plant :=
  { quantity := 2, size := "5G", price := 10, discount_percent := 10,
    discount_dollars := 1 }

/-- Sample installation data used to instantiate the pricing theorems on
concrete data. -/
def sample_installation : InstallationData :=
  { origin_location := "Frankfort", mulch_type := "Hardwood",
    tree_stakes_quantity := 1, deer_guards_quantity := 2,
    installation_type := "4-6 trees: 91%",
    customer_street_address := "1 Elm St", customer_city := "Versailles",
    customer_zip := "40383" }

/-- C1: for every standard delivery type ("Single", "Double", "Bulk",
"Bulk Plus"), every origin, and every round-trip mileage ≥ 0, the fee
returned by `calculate_standard_price` is at least the configured per-origin
minimum for that delivery type. -/
theorem standard_fee_ge_minimum (delivery_type : String)
    (ht : delivery_type = "Single" ∨ delivery_type = "Double" ∨
          delivery_type = "Bulk" ∨ delivery_type = "Bulk Plus")
    (origin_name : Origin) (roundtrip_mileage : ℚ) (hm : 0 ≤ roundtrip_mileage)
    (fee min_fee : ℚ)
    (hfee : calculate_standard_price roundtrip_mileage delivery_type origin_name = some fee)
    (hmin : configured_minimum delivery_type origin_name = some min_fee) :
    min_fee ≤ fee := by
  rcases ht with rfl | rfl | rfl | rfl <;> cases origin_name <;>
    simp [calculate_standard_price, configured_minimum, DELIVERY_TYPES,
      origin_minimum] at hfee hmin <;>
    subst hmin <;> subst hfee <;> exact le_max_right _ _

/-- Witness for C1: Single from Frankfort at round-trip mileage 0 quotes a
fee of $45, which is at least the configured $45 minimum. -/
theorem standard_fee_ge_minimum_witness : (45 : ℚ) ≤ 45 :=
  standard_fee_ge_minimum "Single" (Or.inl rfl) Origin.Frankfort 0 (by norm_num)
    45 45
    (by simp [calculate_standard_price, DELIVERY_TYPES, origin_minimum])
    (by simp [configured_minimum, DELIVERY_TYPES, origin_minimum])

/-- C2: `calculate_pricing` computes delivery cost as `2.25 * 2 *` the
one-way mileage returned by the distance lookup; the final subtotal is the
sum of discounted plant materials, installation materials, installation cost
(the 0.85–0.97 tier multiplier applied to materials plus plant cost) and
delivery cost; tax is 6% of the subtotal; and the total is subtotal plus
tax. -/
theorem pricing_formula (plants_data : List Plant)
    (installation_data : InstallationData) (distance : DistanceResult)
    (miles : ℚ) (hd : distance = DistanceResult.ok miles) :
    (calculate_pricing plants_data installation_data distance).delivery_cost =
      2.25 * 2 * miles ∧
    (calculate_pricing plants_data installation_data distance).final_subtotal =
      (calculate_pricing plants_data installation_data distance).plant_material_discount_total +
      (calculate_pricing plants_data installation_data distance).installation_material_total +
      (calculate_pricing plants_data installation_data distance).installation_cost +
      (calculate_pricing plants_data installation_data distance).delivery_cost ∧
    (calculate_pricing plants_data installation_data distance).installation_cost =
      ((calculate_pricing plants_data installation_data distance).installation_material_total +
       (calculate_pricing plants_data installation_data distance).plant_material_total) *
      install_multiplier installation_data.installation_type ∧
    0.85 ≤ install_multiplier installation_data.installation_type ∧
    install_multiplier installation_data.installation_type ≤ 0.97 ∧
    (calculate_pricing plants_data installation_data distance).final_tax =
      (calculate_pricing plants_data installation_data distance).final_subtotal * 0.06 ∧
    (calculate_pricing plants_data installation_data distance).final_total =
      (calculate_pricing plants_data installation_data distance).final_subtotal +
      (calculate_pricing plants_data installation_data distance).final_tax := by
  subst hd
  refine ⟨rfl, rfl, rfl, ?_, ?_, rfl, rfl⟩ <;>
    · unfold install_multiplier
      split_ifs <;> norm_num

/-- Witness for C2: the pricing formulas instantiated on the sample request
with a successful 15-mile distance lookup. -/
theorem pricing_formula_witness :
    (calculate_pricing [sample_plant] sample_installation (DistanceResult.ok 15)).delivery_cost =
      2.25 * 2 * 15 ∧
    (calculate_pricing [sample_plant] sample_installation (DistanceResult.ok 15)).final_subtotal =
      (calculate_pricing [sample_plant] sample_installation (DistanceResult.ok 15)).plant_material_discount_total +
      (calculate_pricing [sample_plant] sample_installation (DistanceResult.ok 15)).installation_material_total +
      (calculate_pricing [sample_plant] sample_installation (DistanceResult.ok 15)).installation_cost +
      (calculate_pricing [sample_plant] sample_installation (DistanceResult.ok 15)).delivery_cost ∧
    (calculate_pricing [sample_plant] sample_installation (DistanceResult.ok 15)).installation_cost =
      ((calculate_pricing [sample_plant] sample_installation (DistanceResult.ok 15)).installation_material_total +
       (calculate_pricing [sample_plant] sample_installation (DistanceResult.ok 15)).plant_material_total) *
      install_multiplier sample_installation.installation_type ∧
    0.85 ≤ install_multiplier sample_installation.installation_type ∧
    install_multiplier sample_installation.installation_type ≤ 0.97 ∧
    (calculate_pricing [sample_plant] sample_installation (DistanceResult.ok 15)).final_tax =
      (calculate_pricing [sample_plant] sample_installation (DistanceResult.ok 15)).final_subtotal * 0.06 ∧
    (calculate_pricing [sample_plant] sample_installation (DistanceResult.ok 15)).final_total =
      (calculate_pricing [sample_plant] sample_installation (DistanceResult.ok 15)).final_subtotal +
      (calculate_pricing [sample_plant] sample_installation (DistanceResult.ok 15)).final_tax :=
  pricing_formula [sample_plant] sample_installation (DistanceResult.ok 15) 15 rfl

/-- C3 counterexample: when the distance lookup fails, no error propagates:
`calculate_driving_distance` substitutes a mileage of 0, and
`calculate_pricing` still produces a complete quote for the sample request —
delivery is costed at $0 and a full total of $194.06957 is returned, instead
of the computation failing with no quote result. -/
theorem distance_failure_quote_counterexample :
    calculate_driving_distance DistanceResult.failure = 0 ∧
    (calculate_pricing [sample_plant] sample_installation DistanceResult.failure).delivery_cost = 0 ∧
    (calculate_pricing [sample_plant] sample_installation DistanceResult.failure).final_subtotal =
      366169 / 2000 ∧
    (calculate_pricing [sample_plant] sample_installation DistanceResult.failure).final_total =
      19406957 / 100000 := by
  refine ⟨rfl, ?_, ?_, ?_⟩ <;>
    · simp [calculate_pricing, calculate_driving_distance, sample_plant,
        sample_installation, plant_material_total, plant_material_discount_total,
        total_mulch_quantity_raw, total_soil_quantity_raw, total_tablet_quantity_raw,
        get_mulch_soil_tablet_quantities, size_data, category_a, category_b,
        category_c, mulch_unit_price, install_multiplier]
      try norm_num

/-- C3 as amended: when the distance lookup fails, `calculate_driving_distance`
returns 0 (after displaying an error message) and `calculate_pricing`
proceeds, producing a complete quote whose delivery mileage and delivery cost
are 0; the quote is never aborted. -/
theorem distance_failure_amended (plants_data : List Plant)
    (installation_data : InstallationData) :
    calculate_driving_distance DistanceResult.failure = 0 ∧
    (calculate_pricing plants_data installation_data DistanceResult.failure).delivery_mileage = 0 ∧
    (calculate_pricing plants_data installation_data DistanceResult.failure).delivery_cost = 0 ∧
    (calculate_pricing plants_data installation_data DistanceResult.failure).final_total =
      (calculate_pricing plants_data installation_data DistanceResult.failure).final_subtotal +
      (calculate_pricing plants_data installation_data DistanceResult.failure).final_tax := by
  refine ⟨rfl, rfl, ?_, rfl⟩
  show 2.25 * 2 * calculate_driving_distance DistanceResult.failure = 0
  norm_num [calculate_driving_distance]

/-- C4: the spec's two worked examples for `calculate_standard_price`:
round-trip 20 miles, Single from Frankfort quotes max(20×2.00, 45) = $45;
round-trip 80 miles, Double from Lexington quotes max(80×2.95, 70) = $236. -/
theorem standard_price_worked_examples :
    calculate_standard_price 20 "Single" Origin.Frankfort = some 45 ∧
    calculate_standard_price 80 "Double" Origin.Lexington = some 236 := by
  constructor <;>
    · simp [calculate_standard_price, DELIVERY_TYPES, origin_minimum]
      norm_num

/-- C5: for every positive round-trip mileage, the large-Christmas-tree fee
follows the configured tiered formula — mileage at `first_20_miles_rate` up
to 20 miles, the remainder at the strictly lower `after_20_miles_rate`, plus
`setup_fee`, floored at `minimum`. -/
theorem ct_large_tiered_formula (roundtrip_mileage : ℚ) (hm : 0 < roundtrip_mileage) :
    ∃ config r1 r2 setup minimum,
      DELIVERY_TYPES "Christmas Tree (8-9ft and larger)" = some config ∧
      config.first_20_miles_rate = some r1 ∧
      config.after_20_miles_rate = some r2 ∧
      config.setup_fee = some setup ∧
      config.minimum = some minimum ∧
      r2 < r1 ∧
      calculate_christmas_tree_large_price roundtrip_mileage =
        some (if roundtrip_mileage ≤ 20 then
                max (roundtrip_mileage * r1 + setup) minimum
              else
                max (20 * r1 + (roundtrip_mileage - 20) * r2 + setup) minimum) := by
  refine ⟨_, 1.60, 0.75, 30.50, 55, rfl, rfl, rfl, rfl, rfl, by norm_num, ?_⟩
  have h0 : ¬ roundtrip_mileage ≤ 0 := not_le.mpr hm
  simp [calculate_christmas_tree_large_price, DELIVERY_TYPES, h0]
  split_ifs <;> norm_num

/-- Witness for C5: the tiered formula instantiated at round-trip mileage 40. -/
theorem ct_large_tiered_formula_witness :
    ∃ config r1 r2 setup minimum,
      DELIVERY_TYPES "Christmas Tree (8-9ft and larger)" = some config ∧
      config.first_20_miles_rate = some r1 ∧
      config.after_20_miles_rate = some r2 ∧
      config.setup_fee = some setup ∧
      config.minimum = some minimum ∧
      r2 < r1 ∧
      calculate_christmas_tree_large_price 40 =
        some (if (40 : ℚ) ≤ 20 then max (40 * r1 + setup) minimum
              else max (20 * r1 + ((40 : ℚ) - 20) * r2 + setup) minimum) :=
  ct_large_tiered_formula 40 (by norm_num)

/-- C6: contrary to the claim (and to the function's own docstring, which
lists rates 1.30/0.65, setup fee 58.50, minimum 60 and the example
40 → $97.50), `calculate_christmas_tree_large_price` reads the configured
values 1.60/0.75, setup fee 30.50, minimum 55, and so returns
20×1.60 + 20×0.75 + 30.50 = $77.50 at round-trip mileage 40, not $97.50. -/
theorem ct_large_at_40_is_77_50 :
    calculate_christmas_tree_large_price 40 = some 77.50 ∧
    calculate_christmas_tree_large_price 40 ≠ some 97.50 := by
  constructor <;>
    · simp [calculate_christmas_tree_large_price, DELIVERY_TYPES]
      norm_num

/-- C7 counterexample: the claim that every returned fee equals its own
round-half-up 2-decimal rounding fails at round-trip mileage 80.1 for Double
from Lexington: the code returns the unrounded 2.95 × 80.1 = 236.295, whose
rounding is 236.30. -/
theorem standard_price_unrounded_counterexample :
    calculate_standard_price (801 / 10) "Double" Origin.Lexington =
      some (47259 / 200) ∧
    roundHalfUp2 (47259 / 200) ≠ 47259 / 200 := by
  constructor
  · simp [calculate_standard_price, DELIVERY_TYPES, origin_minimum]
    norm_num
  · norm_num [roundHalfUp2]

/-- C7 as amended: the pricing functions apply no rounding at all — the fee
is returned exactly as computed, and for both `calculate_standard_price` and
`calculate_christmas_tree_small_price` there are mileage inputs whose
returned fee differs from its round-half-up 2-decimal rounding. -/
theorem no_rounding_applied :
    (∃ fee, calculate_standard_price (803 / 10) "Double" Origin.Lexington = some fee ∧
      roundHalfUp2 fee ≠ fee) ∧
    (∃ fee, calculate_christmas_tree_small_price (10001 / 100) = some fee ∧
      roundHalfUp2 fee ≠ fee) := by
  constructor
  · refine ⟨47377 / 200, ?_, ?_⟩
    · simp [calculate_standard_price, DELIVERY_TYPES, origin_minimum]
      norm_num
    · norm_num [roundHalfUp2]
  · refine ⟨17064 / 125, ?_, ?_⟩
    · simp [calculate_christmas_tree_small_price, DELIVERY_TYPES]
      norm_num
    · norm_num [roundHalfUp2]

/-- C8: the Simple delivery type quotes a fixed price determined solely by
which service-city name occurs in the destination text, independently of the
distance lookup's outcome: a destination containing "Lexington" quotes
exactly $30.00, and a destination containing neither city name fails with no
quote. -/
theorem simple_fixed_price (destination : List Char) (d d' : DistanceResult) :
    computeQuoteSimple destination d = computeQuoteSimple destination d' ∧
    (occursIn "Lexington".toList destination = true →
      computeQuoteSimple destination d = some 30) ∧
    (occursIn "Lexington".toList destination = false →
      occursIn "Frankfort".toList destination = false →
      computeQuoteSimple destination d = none) := by
  refine ⟨rfl, ?_, ?_⟩
  · intro h
    simp at h
    simp [computeQuoteSimple, DELIVERY_TYPES, h]
    norm_num
  · intro h1 h2
    simp at h1 h2
    simp [computeQuoteSimple, DELIVERY_TYPES, h1, h2]

/-- Witness for C8: a destination containing "Lexington" quotes $30.00 even
though the distance lookup failed. -/
theorem simple_fixed_price_witness :
    computeQuoteSimple "123 Main St, Lexington".toList DistanceResult.failure = some 30 :=
  (simple_fixed_price "123 Main St, Lexington".toList DistanceResult.failure
    (DistanceResult.ok 5)).2.1 (by decide)

/-- C9: for every quantity, `get_mulch_soil_tablet_quantities` returns
`(0, 0, 0)` whenever the plant size is not a key of its size table or the
mulch type is in none of its three categories; it is a total function and
returns no partially computed quantities on such inputs. -/
theorem unknown_inputs_quote_zero (plant_size mulch_type : String) (quantity : ℚ)
    (h : size_data plant_size = none ∨
      (mulch_type ∉ category_a ∧ mulch_type ∉ category_b ∧ mulch_type ∉ category_c)) :
    get_mulch_soil_tablet_quantities plant_size mulch_type quantity = (0, 0, 0) := by
  unfold get_mulch_soil_tablet_quantities
  rcases h with h | ⟨ha, hb, hc⟩
  · rw [h]
  · cases hsd : size_data plant_size with
    | none => rfl
    | some base_data => simp [ha, hb, hc]

/-- Witness for C9: an unknown plant size yields `(0, 0, 0)` even with a
valid mulch type and a positive quantity. -/
theorem unknown_inputs_quote_zero_witness :
    get_mulch_soil_tablet_quantities "banana" "Hardwood" 3 = (0, 0, 0) :=
  unknown_inputs_quote_zero "banana" "Hardwood" 3 (Or.inl rfl)

/-- C10: in every `calculate_pricing` result the three material quantities
are the ceilings of the corresponding per-plant sums — hence integers at
least the unrounded sums — and the tablet, mulch and soil-conditioner prices
are those ceiled quantities times the unit prices. -/
theorem quantities_ceiled (plants_data : List Plant)
    (installation_data : InstallationData) (distance : DistanceResult) :
    (calculate_pricing plants_data installation_data distance).total_mulch_quantity =
      ⌈total_mulch_quantity_raw plants_data installation_data.mulch_type⌉ ∧
    total_mulch_quantity_raw plants_data installation_data.mulch_type ≤
      ((calculate_pricing plants_data installation_data distance).total_mulch_quantity : ℚ) ∧
    (calculate_pricing plants_data installation_data distance).total_soil_quantity =
      ⌈total_soil_quantity_raw plants_data installation_data.mulch_type⌉ ∧
    total_soil_quantity_raw plants_data installation_data.mulch_type ≤
      ((calculate_pricing plants_data installation_data distance).total_soil_quantity : ℚ) ∧
    (calculate_pricing plants_data installation_data distance).total_tablet_quantity =
      ⌈total_tablet_quantity_raw plants_data installation_data.mulch_type⌉ ∧
    total_tablet_quantity_raw plants_data installation_data.mulch_type ≤
      ((calculate_pricing plants_data installation_data distance).total_tablet_quantity : ℚ) ∧
    (calculate_pricing plants_data installation_data distance).tablet_total_price =
      ((calculate_pricing plants_data installation_data distance).total_tablet_quantity : ℚ) * 0.75 ∧
    (calculate_pricing plants_data installation_data distance).mulch_total_price =
      ((calculate_pricing plants_data installation_data distance).total_mulch_quantity : ℚ) *
        mulch_unit_price installation_data.mulch_type ∧
    (calculate_pricing plants_data installation_data distance).soil_conditioner_total_price =
      ((calculate_pricing plants_data installation_data distance).total_soil_quantity : ℚ) * 9.99 :=
  ⟨rfl, Int.le_ceil _, rfl, Int.le_ceil _, rfl, Int.le_ceil _, rfl, rfl, rfl⟩

